import Mathlib

/-!
Verification of the bubble-api client library against its specification.

The development shallowly embeds the parts of the code base that the
claims are about:

* `bubble_api/constraint.py` — `Constraint.format_constraint_value` and
  `Constraint.to_dict` (value formatting and serialization);
* `bubble_api/field.py` — the `Field` comparison-operator overloads that
  build `Constraint`s, together with Python's reflected-operator dispatch;
* `bubble_api/client.py` — `BubbleClient.make_request` (recursive
  retry/backoff executor), `get_objects_gen` (cursor pagination),
  `create_bulk` (newline-delimited JSON bulk import), `delete`
  (argument-validation dispatch) and `_get_headers`;
* `bubble_api/wrapper.py` — the `BubbleWrapper.delete` dispatch, which
  differs from the client one;
* `src/bubble_api/bubble.py` — the alternate `Bubble.make_request`
  retry loop (while-loop with status classification and the alternate
  exponential backoff policy) and the `get_object_by_id` branch condition.

Machine reals (Python floats used for sleep durations) are modelled as
rationals; HTTP transports are modelled as functions from the attempt
index to the status code returned by that attempt.
-/

namespace BubbleApi

/-- Python values that can be passed as a constraint value: `None`, strings,
numbers (modelled by integers, formatted by decimal conversion), dates,
datetimes, and lists (which `format_constraint_value` has no branch for). -/
inductive PyVal where
  | pynone
  | str (s : String)
  | int (n : Int)
  | date (y m d : Nat)
  | datetime (y m d hh mm ss us : Nat)
  | list (xs : List String)
deriving DecidableEq

/-- Left-pad the decimal form of `n` with zeros to width `w`, as `strftime`
field formatting does. -/
def zeroPad (w : Nat) (n : Nat) : String :=
  let s := toString n
  String.mk (List.replicate (w - s.length) '0') ++ s

/-- Rendering of `value.strftime("%Y-%m-%d")`. -/
def dateFmt (y m d : Nat) : String :=
  zeroPad 4 y ++ "-" ++ zeroPad 2 m ++ "-" ++ zeroPad 2 d

/-- Rendering of `value.strftime("%Y-%m-%dT%H:%M:%S.%fZ")`. -/
def datetimeFmt (y m d hh mm ss us : Nat) : String :=
  dateFmt y m d ++ "T" ++ zeroPad 2 hh ++ ":" ++ zeroPad 2 mm ++ ":"
    ++ zeroPad 2 ss ++ "." ++ zeroPad 6 us ++ "Z"

/-- `Constraint.format_constraint_value` from `bubble_api/constraint.py`:
`None` is passed through, strings are passed through, numbers are converted
with `str`, datetimes and dates are formatted with `strftime`.  Any other
value (in particular a list) matches no `isinstance` branch, so the Python
function falls off the end and implicitly returns `None`. -/
def formatConstraintValue : PyVal → Option String
  | PyVal.pynone => Option.none
  | PyVal.str s => some s
  | PyVal.int n => some (toString n)
  | PyVal.datetime y m d hh mm ss us => some (datetimeFmt y m d hh mm ss us)
  | PyVal.date y m d => some (dateFmt y m d)
  | PyVal.list _ => Option.none

/-- A `Constraint` after `__init__` has run: the value field already holds
the formatted value. -/
structure Constraint where
  key : String
  constraint_type : String
  value : Option String
deriving DecidableEq

/-- `Constraint.__init__`: stores `key`, `constraint_type` and the
formatted value. -/
def Constraint.make (key constraint_type : String) (v : PyVal) : Constraint :=
  ⟨key, constraint_type, formatConstraintValue v⟩

/-- The dict produced by `Constraint.to_dict`: `key` and `constraint_type`
are always present; `value = Option.none` means the `"value"` entry is
absent from the dict (there is no way to serialize a null value). -/
structure ConstraintDict where
  key : String
  constraint_type : String
  value : Option String
deriving DecidableEq

/-- Python truthiness of the stored `Optional[str]` value: `None` and the
empty string are falsy, every other string is truthy. -/
def pyTruthy : Option String → Bool
  | Option.none => false
  | some s => !(s == "")

/-- `Constraint.to_dict`: always emits `key` and `constraint_type`, and
emits `value` only when `self.value` is truthy (`if self.value:`). -/
def Constraint.to_dict (c : Constraint) : ConstraintDict :=
  ⟨c.key, c.constraint_type, if pyTruthy c.value then c.value else Option.none⟩

/-- `Field.format_field_name`: lower-case and strip spaces. -/
def formatFieldName (s : String) : String :=
  (s.toLower).replace " " ""

/-- A `Field` from `bubble_api/field.py`: just a normalized column name. -/
structure Field where
  field_name : String
deriving DecidableEq

/-- `Field.__init__`. -/
def Field.ofName (s : String) : Field :=
  ⟨formatFieldName s⟩

/-- `Field.greater_than` (also bound to `__gt__`). -/
def Field.greater_than (f : Field) (v : PyVal) : Constraint :=
  Constraint.make f.field_name "greater than" v

/-- `Field.less_than` (also bound to `__lt__`). -/
def Field.less_than (f : Field) (v : PyVal) : Constraint :=
  Constraint.make f.field_name "less than" v

/-- `Field.is_empty`: value-less constraint (Python default `value=None`). -/
def Field.is_empty (f : Field) : Constraint :=
  Constraint.make f.field_name "is_empty" PyVal.pynone

/-- `Field.is_not_empty`: value-less constraint. -/
def Field.is_not_empty (f : Field) : Constraint :=
  Constraint.make f.field_name "is_not_empty" PyVal.pynone

/-- `Field.is_in`: operator string `"in"`. -/
def Field.is_in (f : Field) (v : PyVal) : Constraint :=
  Constraint.make f.field_name "in" v

/-- `Field.equals` (also bound to `__eq__`). -/
def Field.equalsOp (f : Field) (v : PyVal) : Constraint :=
  Constraint.make f.field_name "equals" v

/-- Outcome of evaluating a rich-comparison special method on a `Field`. -/
inductive CmpResult where
  | constr (c : Constraint)
  | notImplementedError
deriving DecidableEq

/-- `Field.__gt__ = greater_than`. -/
def Field.dunderGt (f : Field) (v : PyVal) : CmpResult :=
  CmpResult.constr (f.greater_than v)

/-- `Field.__lt__ = less_than`. -/
def Field.dunderLt (f : Field) (v : PyVal) : CmpResult :=
  CmpResult.constr (f.less_than v)

/-- `Field.__ge__` raises `NotImplementedError`. -/
def Field.dunderGe (_ : Field) (_ : PyVal) : CmpResult :=
  CmpResult.notImplementedError

/-- `Field.__le__` raises `NotImplementedError`. -/
def Field.dunderLe (_ : Field) (_ : PyVal) : CmpResult :=
  CmpResult.notImplementedError

/-- Python evaluation of `v < f` for a built-in value `v` and a `Field` `f`:
the built-in type's `__lt__` returns `NotImplemented` on a `Field` operand,
so Python dispatches to the reflected method `f.__gt__(v)`. -/
def pyLtValField (v : PyVal) (f : Field) : CmpResult :=
  f.dunderGt v

/-- Python evaluation of `v > f`: reflected to `f.__lt__(v)`. -/
def pyGtValField (v : PyVal) (f : Field) : CmpResult :=
  f.dunderLt v

/-- Python evaluation of `v <= f`: reflected to `f.__ge__(v)`. -/
def pyLeValField (v : PyVal) (f : Field) : CmpResult :=
  f.dunderGe v

/-- Python evaluation of `v >= f`: reflected to `f.__le__(v)`. -/
def pyGeValField (v : PyVal) (f : Field) : CmpResult :=
  f.dunderLe v

/-- A Python value as it is used in a boolean context by
`Bubble.get_object_by_id` in `src/bubble_api/bubble.py`. -/
inductive PyCondVal where
  | ofBool (b : Bool)
  | ofStr (s : String)
deriving DecidableEq

/-- Python truthiness: a bool is itself, a string is truthy iff non-empty. -/
def PyCondVal.truthy : PyCondVal → Bool
  | PyCondVal.ofBool b => b
  | PyCondVal.ofStr s => !(s == "")

/-- Python `or`: returns the first operand if it is truthy, otherwise the
second operand. -/
def pyOr (a b : PyCondVal) : PyCondVal :=
  if a.truthy then a else b

/-- The branch condition `column_id == "_id" or "unique_id"` from
`Bubble.get_object_by_id`: Python parses it as
`(column_id == "_id") or "unique_id"`. -/
def getObjectByIdCond (column_id : String) : PyCondVal :=
  pyOr (PyCondVal.ofBool (column_id == "_id")) (PyCondVal.ofStr "unique_id")

/-- The two code paths `Bubble.get_object_by_id` dispatches between. -/
inductive LookupPath where
  | primaryId
  | secondaryColumnQuery
deriving DecidableEq

/-- The dispatch of `Bubble.get_object_by_id`: the `if` branch fetches by
primary id, the `else` branch runs a constrained query on the column. -/
def getObjectByIdDispatch (column_id : String) : LookupPath :=
  if (getObjectByIdCond column_id).truthy then LookupPath.primaryId
  else LookupPath.secondaryColumnQuery

/-- Outcome of `BubbleClient.make_request`: a 2xx response is returned, a
terminal non-2xx response is raised by `raise_for_status`. -/
inductive ReqOutcome where
  | success (status : Nat)
  | raised (status : Nat)
deriving DecidableEq

/-- One run of the recursive executor: how many transport attempts were
made, the sleep durations in order, and the final outcome. -/
structure ReqRun where
  attempts : Nat
  sleeps : List ℚ
  outcome : ReqOutcome
deriving DecidableEq

/-- `BubbleClient.make_request` from `bubble_api/client.py` (identical code
in `bubble_api/wrapper.py`), with the transport modelled as a map from the
attempt index to the status code of that attempt.  On 2xx the response is
returned; when `nb_retries == 0` or the status is 4xx, `raise_for_status`
is called — it raises exactly for statuses in `[400, 600)`, so for a non-2xx
status below 400 at exhaustion the Python code falls through and recurses
with a negative budget, never terminating; that divergence is `Option.none`.
Otherwise the executor sleeps `sleep_time`, doubles `sleep_time` when
`exponential_backoff` is set, and recurses with `nb_retries - 1`. -/
def makeRequestAux (tr : Nat → Nat) (expo : Bool) :
    Nat → Nat → ℚ → Option ReqRun
  | attempt, nbr, sleep_time =>
    let status := tr attempt
    if status / 100 = 2 then some ⟨1, [], ReqOutcome.success status⟩
    else
      match nbr with
      | 0 =>
        if 400 ≤ status ∧ status < 600 then some ⟨1, [], ReqOutcome.raised status⟩
        else Option.none
      | Nat.succ n =>
        if status / 100 = 4 then
          if 400 ≤ status ∧ status < 600 then some ⟨1, [], ReqOutcome.raised status⟩
          else Option.none
        else
          match makeRequestAux tr expo (attempt + 1) n
              (if expo then sleep_time * 2 else sleep_time) with
          | Option.none => Option.none
          | some rest =>
            some ⟨rest.attempts + 1, sleep_time :: rest.sleeps, rest.outcome⟩

/-- Entry point of the executor: the first attempt has index 0. -/
def make_request (tr : Nat → Nat) (nb_retries : Nat) (sleep_time : ℚ)
    (exponential_backoff : Bool) : Option ReqRun :=
  makeRequestAux tr exponential_backoff 0 nb_retries sleep_time

/-- Final result of the `Bubble.make_request` while-loop: either the
status of the `resp.ok` response that was returned, or the status of the
last response when the loop ended and a `ValueError` was raised. -/
inductive BubbleResult where
  | returned (status : Nat)
  | valueError (lastStatus : Nat)
deriving DecidableEq

/-- One run of the `Bubble.make_request` while-loop from
`src/bubble_api/bubble.py`: number of attempts, sleeps in order, and the
final result. -/
structure BubbleRun where
  attempts : Nat
  sleeps : List ℚ
  result : BubbleResult
deriving DecidableEq

/-- The body of the `while retry_index <= n_retries and not break_while`
loop of `Bubble.make_request`.  `fuel = n_retries - retry_index + 1` counts
the loop iterations still allowed.  `resp.ok` holds for statuses below 400
and returns the parsed response; statuses 400, 404 and 401 set `break_while`
(after the loop a `ValueError` carrying the last response surfaces); every
other status falls into the bare `else` branch, and the `finally` block
sleeps — `base_wait_time` normally, or `0` for `retry_index == 0` and
`base_wait_time ** retry_index` afterwards under `exponential_backoff` —
whenever `retry_index < n_retries`. -/
def bubbleLoopAux (tr : Nat → Nat) (base : ℚ) (expo : Bool) :
    Nat → Nat → BubbleRun
  | _, 0 => ⟨0, [], BubbleResult.valueError 0⟩
  | idx, Nat.succ fuel =>
    let status := tr idx
    if status < 400 then ⟨1, [], BubbleResult.returned status⟩
    else if status = 400 ∨ status = 404 ∨ status = 401 then
      ⟨1, [], BubbleResult.valueError status⟩
    else
      match fuel with
      | 0 => ⟨1, [], BubbleResult.valueError status⟩
      | Nat.succ f =>
        let s : ℚ := if expo then (if idx = 0 then 0 else base ^ idx) else base
        let rest := bubbleLoopAux tr base expo (idx + 1) (Nat.succ f)
        ⟨rest.attempts + 1, s :: rest.sleeps, rest.result⟩

/-- `Bubble.make_request` (the count/fetch variant): run the retry loop
starting at `retry_index = 0`, which allows `n_retries + 1` iterations. -/
def bubble_make_request (tr : Nat → Nat) (n_retries : Nat) (base : ℚ)
    (expo : Bool) : BubbleRun :=
  bubbleLoopAux tr base expo 0 (n_retries + 1)

/-- One page of a list-fetch response envelope
(`{results, cursor, count, remaining}`); records are modelled by naturals. -/
structure Page where
  results : List Nat
  cursor : Nat
  count : Nat
  remaining : Nat
deriving DecidableEq

/-- The `while True` loop of `get_objects_gen` (identical in
`bubble_api/client.py` and `bubble_api/wrapper.py`), run against the list
of pages the backend will answer with, in order.  `cur` is the cursor of
the request being issued.  Each page's `results` are yielded in order; the
next request cursor is `json_resp["cursor"] + json_resp["count"]`; the loop
breaks when `json_resp["remaining"] == 0`.  The value is the yielded
records together with the trace of requested cursors; `Option.none` means
the backend page list was exhausted while the generator still wanted more
pages. -/
def getObjectsGenAux : List Page → Nat → Option (List Nat × List Nat)
  | [], _ => Option.none
  | p :: rest, cur =>
    if p.remaining = 0 then some (p.results, [cur])
    else
      match getObjectsGenAux rest (p.cursor + p.count) with
      | Option.none => Option.none
      | some pr => some (p.results ++ pr.1, cur :: pr.2)

/-- `get_objects_gen`: pagination starts with `params = {cursor: 0, ...}`. -/
def get_objects_gen (pages : List Page) : Option (List Nat × List Nat) :=
  getObjectsGenAux pages 0

/-- First page of the concrete pagination scenario: 100 records,
`remaining = 137`. -/
def pageA : Page :=
  ⟨List.range' 0 100, 0, 100, 137⟩

/-- Second page of the concrete pagination scenario: 100 records,
`remaining = 37`. -/
def pageB : Page :=
  ⟨List.range' 100 100, 100, 100, 37⟩

/-- Third page of the concrete pagination scenario: 37 records,
`remaining = 0` (final page). -/
def pageC : Page :=
  ⟨List.range' 200 37, 200, 37, 0⟩

/-- A poison page: the generator must terminate before ever requesting it. -/
def pageD : Page :=
  ⟨[999], 999, 999, 999⟩

/-- The cursor sequence the specification's state machine prescribes when
the pages listed are answered in order starting from request cursor `c`:
one entry per page request, advancing by `cursor + count` after each
non-final page. -/
def specCursorTrace (c : Nat) : List Page → List Nat
  | [] => [c]
  | p :: rest => c :: specCursorTrace (p.cursor + p.count) rest

/-- The request body built by `create_bulk`:
`"\n".join(json.dumps(f) for f in fields)`, with `json.dumps` (an external
collaborator) abstracted as `dumps`. -/
def createBulkBody (dumps : Nat → String) (fields : List Nat) : String :=
  String.intercalate "\n" (fields.map dumps)

/-- Helper for `pySplitNewline`: walks the characters, accumulating the
current line in reverse. -/
def splitLinesAux : List Char → List Char → List String
  | [], acc => [String.mk acc.reverse]
  | c :: cs, acc =>
    if c = '\n' then String.mk acc.reverse :: splitLinesAux cs []
    else splitLinesAux cs (c :: acc)

/-- Python's `text.split("\n")`: the segments of the text between newline
characters, in order (one segment even for the empty text). -/
def pySplitNewline (s : String) : List String :=
  splitLinesAux s.data []

/-- The list comprehension `[json.loads(r) for r in lines]`: lines are
parsed left to right, and a `json.loads` failure (`Option.none`) raises out
of the comprehension, so the whole result is lost. -/
def parseLines (loads : String → Option Nat) : List String → Option (List Nat)
  | [] => some []
  | l :: ls =>
    match loads l with
    | Option.none => Option.none
    | some v =>
      match parseLines loads ls with
      | Option.none => Option.none
      | some vs => some (v :: vs)

/-- The response decoding of `create_bulk`:
`[json.loads(r) for r in resp.text.split("\n")]`, with `json.loads` (an
external collaborator) abstracted as `loads`, returning `Option.none` on a
malformed line. -/
def createBulkDecode (loads : String → Option Nat) (text : String) :
    Option (List Nat) :=
  parseLines loads (pySplitNewline text)

/-- A toy instance of the external JSON line decoder, used to exhibit
concrete malformed-line behavior: the line `"{bad"` is malformed, any other
line decodes to its length. -/
def toyLoads (s : String) : Option Nat :=
  if s = "\x7bbad" then Option.none else some s.length

/-- `BubbleClient._get_headers` (identical in the wrapper): a bearer
Authorization header when a token is configured, `None` otherwise. -/
def get_headers (api_token : Option String) : Option (List (String × String)) :=
  match api_token with
  | some t => some [("Authorization", "Bearer " ++ t)]
  | Option.none => Option.none

/-- The only Python exception relevant to header construction. -/
inductive PyError where
  | typeError
deriving DecidableEq

/-- The headers dict built at the top of `create_bulk`:
`{**self._get_headers(), "Content-Type": "text/plain"}`.  Unpacking `None`
with `**` in a dict display raises `TypeError`. -/
def createBulkHeaders (api_token : Option String) :
    Except PyError (List (String × String)) :=
  match get_headers api_token with
  | Option.none => Except.error PyError.typeError
  | some hs => Except.ok (hs ++ [("Content-Type", "text/plain")])

/-- Control flow of `create_bulk` up to its single HTTP request: the pair
is (number of HTTP requests issued, outcome).  The headers dict is built
before `make_request` is called, so a `TypeError` there means zero
requests; otherwise the one bulk POST goes out. -/
def createBulkRun (api_token : Option String) : Nat × Except PyError Unit :=
  match createBulkHeaders api_token with
  | Except.error e => (0, Except.error e)
  | Except.ok _ => (1, Except.ok ())

/-- Header selection inside `make_request`: when the caller passed no
`headers` kwarg it is filled from `_get_headers()` — possibly `None`,
which `requests` accepts as "no extra headers". -/
def makeRequestEffectiveHeaders (api_token : Option String)
    (kwargsHeaders : Option (List (String × String))) :
    Option (List (String × String)) :=
  match kwargsHeaders with
  | Option.none => get_headers api_token
  | some h => some h

/-- `create_object` and the other non-bulk operations call `make_request`
without a `headers` kwarg: the pair is (number of HTTP requests issued,
headers attached to them). -/
def createObjectRun (api_token : Option String) :
    Nat × Option (List (String × String)) :=
  (1, makeRequestEffectiveHeaders api_token Option.none)

/-- The `bubble_id` argument of `BubbleClient.delete`: a single id string
or an iterable of ids. -/
inductive IdArg where
  | single (s : String)
  | many (l : List String)
deriving DecidableEq

/-- How a `delete` call resolves. -/
inductive DeleteOutcome where
  | raisedTypeError
  | raisedWarning
  | deletedById
  | deletedByIds
  | deletedByConstraints
deriving DecidableEq

/-- `BubbleClient.delete` from `bubble_api/client.py`, as (outcome, number
of HTTP requests issued).  Both arguments present raises `TypeError` before
any request; a single id deletes with one DELETE; an iterable deletes one
id per DELETE; constraints alone run the query-then-delete composite, whose
request count `constraintRequests` depends on the backend; neither argument
raises `Warning` before any request. -/
def clientDelete (bubble_id : Option IdArg) (constraints : Option (List Constraint))
    (constraintRequests : Nat) : DeleteOutcome × Nat :=
  if bubble_id.isSome ∧ constraints.isSome then (DeleteOutcome.raisedTypeError, 0)
  else
    match bubble_id with
    | some (IdArg.single _) => (DeleteOutcome.deletedById, 1)
    | some (IdArg.many l) => (DeleteOutcome.deletedByIds, l.length)
    | Option.none =>
      match constraints with
      | some _ => (DeleteOutcome.deletedByConstraints, constraintRequests)
      | Option.none => (DeleteOutcome.raisedWarning, 0)

/-- `BubbleWrapper.delete` from `bubble_api/wrapper.py`: it checks
`bubble_id`, then `bubble_ids`, then `constraints`, with no
both-arguments-given validation at all. -/
def wrapperDelete (bubble_id : Option String) (bubble_ids : Option (List String))
    (constraints : Option (List Constraint)) (constraintRequests : Nat) :
    DeleteOutcome × Nat :=
  match bubble_id with
  | some _ => (DeleteOutcome.deletedById, 1)
  | Option.none =>
    match bubble_ids with
    | some l => (DeleteOutcome.deletedByIds, l.length)
    | Option.none =>
      match constraints with
      | some _ => (DeleteOutcome.deletedByConstraints, constraintRequests)
      | Option.none => (DeleteOutcome.raisedWarning, 0)

/-! ## Helper lemmas -/

lemma toDigitsCore_length_le (b : Nat) :
    ∀ (fuel n : Nat) (ds : List Char),
      ds.length ≤ (Nat.toDigitsCore b fuel n ds).length := by
  intro fuel
  induction fuel with
  | zero => intro n ds; simp [Nat.toDigitsCore]
  | succ f ih =>
    intro n ds
    rw [Nat.toDigitsCore]
    split
    · simp
    · exact Nat.le_trans (Nat.le_succ _)
        (by simpa using ih (n / b) (Nat.digitChar (n % b) :: ds))

lemma toDigits_ne_nil (b n : Nat) : Nat.toDigits b n ≠ [] := by
  have h : 1 ≤ (Nat.toDigits b n).length := by
    rw [Nat.toDigits, Nat.toDigitsCore]
    split
    · simp
    · have h2 := toDigitsCore_length_le b n (n / b) [Nat.digitChar (n % b)]
      simpa using h2
  intro hnil
  rw [hnil] at h
  simp at h

lemma nat_repr_ne_empty (n : Nat) : Nat.repr n ≠ "" := by
  intro h
  have h2 : Nat.toDigits 10 n = [] := by
    have h3 := congrArg String.data h
    simpa [Nat.repr, List.asString] using h3
  exact toDigits_ne_nil 10 n h2

lemma int_toString_ne_empty (n : Int) : toString n ≠ "" := by
  show Int.repr n ≠ ""
  match n with
  | Int.ofNat m => exact nat_repr_ne_empty m
  | Int.negSucc m =>
    intro h
    have h2 := congrArg String.length h
    simp [Int.repr, String.length_append] at h2
    exact absurd h2.1 (by decide)

lemma dateFmt_ne_empty (y m d : Nat) : dateFmt y m d ≠ "" := by
  intro h
  have h2 := congrArg String.length h
  simp [dateFmt, String.length_append] at h2
  exact absurd h2.1.1.1.2 (by decide)

lemma datetimeFmt_ne_empty (y m d hh mm ss us : Nat) :
    datetimeFmt y m d hh mm ss us ≠ "" := by
  intro h
  have h2 := congrArg String.length h
  simp [datetimeFmt, dateFmt, String.length_append] at h2
  exact absurd h2.2 (by decide)

lemma range_shift_q (g : Nat → ℚ) (n idx : Nat) :
    g idx :: (List.range n).map (fun j => g (idx + 1 + j))
      = (List.range (n + 1)).map (fun j => g (idx + j)) := by
  rw [List.range_succ_eq_map, List.map_cons, List.map_map]
  have ht : (List.range n).map (fun j => g (idx + 1 + j))
      = (List.range n).map ((fun j => g (idx + j)) ∘ Nat.succ) := by
    refine List.map_congr_left ?_
    intro j _
    show g (idx + 1 + j) = g (idx + (j + 1))
    congr 1
    omega
  rw [ht]
  simp

lemma range_pow_cons (s : ℚ) (n : Nat) :
    s :: (List.range n).map (fun k => s * 2 * 2 ^ k)
      = (List.range (n + 1)).map (fun k => s * 2 ^ k) := by
  rw [List.range_succ_eq_map, List.map_cons, List.map_map]
  have ht : (List.range n).map (fun k => s * 2 * 2 ^ k)
      = (List.range n).map ((fun k => s * 2 ^ k) ∘ Nat.succ) := by
    refine List.map_congr_left ?_
    intro k _
    show s * 2 * 2 ^ k = s * 2 ^ (k + 1)
    ring
  rw [ht]
  simp

lemma makeRequestAux_const (tr : Nat → Nat)
    (h : ∀ i, tr i / 100 ≠ 2 ∧ tr i / 100 ≠ 4 ∧ 400 ≤ tr i ∧ tr i < 600) :
    ∀ (nbr attempt : Nat) (s : ℚ),
      makeRequestAux tr false attempt nbr s =
        some ⟨nbr + 1, List.replicate nbr s,
              ReqOutcome.raised (tr (attempt + nbr))⟩ := by
  intro nbr
  induction nbr with
  | zero =>
    intro attempt s
    obtain ⟨h2, h4, hlo, hhi⟩ := h attempt
    simp [makeRequestAux, h2, hlo, hhi]
  | succ n ih =>
    intro attempt s
    obtain ⟨h2, h4, hlo, hhi⟩ := h attempt
    rw [show attempt + (n + 1) = attempt + 1 + n from by omega]
    simp [makeRequestAux, h2, h4, ih (attempt + 1) s, List.replicate_succ]

lemma makeRequestAux_expo (tr : Nat → Nat)
    (h : ∀ i, tr i / 100 ≠ 2 ∧ tr i / 100 ≠ 4 ∧ 400 ≤ tr i ∧ tr i < 600) :
    ∀ (nbr attempt : Nat) (s : ℚ),
      makeRequestAux tr true attempt nbr s =
        some ⟨nbr + 1, (List.range nbr).map (fun k => s * 2 ^ k),
              ReqOutcome.raised (tr (attempt + nbr))⟩ := by
  intro nbr
  induction nbr with
  | zero =>
    intro attempt s
    obtain ⟨h2, h4, hlo, hhi⟩ := h attempt
    simp [makeRequestAux, h2, hlo, hhi]
  | succ n ih =>
    intro attempt s
    obtain ⟨h2, h4, hlo, hhi⟩ := h attempt
    rw [show attempt + (n + 1) = attempt + 1 + n from by omega,
      ← range_pow_cons s n]
    simp [makeRequestAux, h2, h4, ih (attempt + 1) (s * 2)]

lemma make_request_first_4xx (tr : Nat → Nat) (N : Nat) (s : ℚ) (expo : Bool)
    (h : tr 0 / 100 = 4) :
    make_request tr N s expo = some ⟨1, [], ReqOutcome.raised (tr 0)⟩ := by
  have h2 : ¬ tr 0 / 100 = 2 := by omega
  have hlo : 400 ≤ tr 0 := by omega
  have hhi : tr 0 < 600 := by omega
  cases N with
  | zero => simp [make_request, makeRequestAux, h2, hlo, hhi]
  | succ n => simp [make_request, makeRequestAux, h2, h, hlo, hhi]

lemma bubbleLoopAux_run (tr : Nat → Nat)
    (h : ∀ i, 400 ≤ tr i ∧ tr i ≠ 400 ∧ tr i ≠ 404 ∧ tr i ≠ 401)
    (base : ℚ) (expo : Bool) :
    ∀ (n idx : Nat),
      bubbleLoopAux tr base expo idx (n + 1) =
        ⟨n + 1,
         (List.range n).map
           (fun j => if expo then (if idx + j = 0 then 0 else base ^ (idx + j))
             else base),
         BubbleResult.valueError (tr (idx + n))⟩ := by
  intro n
  induction n with
  | zero =>
    intro idx
    obtain ⟨hlo, h400, h404, h401⟩ := h idx
    have hnotlt : ¬ tr idx < 400 := by omega
    simp [bubbleLoopAux, hnotlt, h400, h404, h401]
  | succ n ih =>
    intro idx
    obtain ⟨hlo, h400, h404, h401⟩ := h idx
    have hnotlt : ¬ tr idx < 400 := by omega
    rw [show idx + (n + 1) = idx + 1 + n from by omega,
      ← range_shift_q
        (fun i => if expo then (if i = 0 then 0 else base ^ i) else base) n idx]
    simp [bubbleLoopAux, hnotlt, h400, h404, h401, ih (idx + 1)]

lemma bubble_make_request_run (tr : Nat → Nat)
    (h : ∀ i, 400 ≤ tr i ∧ tr i ≠ 400 ∧ tr i ≠ 404 ∧ tr i ≠ 401)
    (n : Nat) (base : ℚ) (expo : Bool) :
    bubble_make_request tr n base expo =
      ⟨n + 1,
       (List.range n).map
         (fun j => if expo then (if j = 0 then 0 else base ^ j) else base),
       BubbleResult.valueError (tr n)⟩ := by
  rw [bubble_make_request, bubbleLoopAux_run tr h base expo n 0]
  simp

lemma bubble_make_request_break (tr : Nat → Nat) (n : Nat) (base : ℚ)
    (expo : Bool) (h : tr 0 = 400 ∨ tr 0 = 404 ∨ tr 0 = 401) :
    bubble_make_request tr n base expo =
      ⟨1, [], BubbleResult.valueError (tr 0)⟩ := by
  have hnotlt : ¬ tr 0 < 400 := by omega
  rw [bubble_make_request, bubbleLoopAux.eq_def]
  simp [hnotlt, h]

lemma getObjectsGenAux_run (pl : Page) (hl : pl.remaining = 0) :
    ∀ (ps : List Page) (rest : List Page) (cur : Nat),
      (∀ p ∈ ps, p.remaining ≠ 0) →
      getObjectsGenAux (ps ++ pl :: rest) cur =
        some ((ps.map Page.results).flatten ++ pl.results,
              specCursorTrace cur ps) := by
  intro ps
  induction ps with
  | nil =>
    intro rest cur _
    simp [getObjectsGenAux, hl, specCursorTrace]
  | cons p ps ih =>
    intro rest cur hps
    have hp : p.remaining ≠ 0 := hps p (by simp)
    simp [getObjectsGenAux, hp, specCursorTrace,
      ih rest (p.cursor + p.count) (fun q hq => hps q (by simp [hq]))]

lemma parseLines_eq_some (loads : String → Option Nat) :
    ∀ (ls : List String) (vs : List Nat),
      parseLines loads ls = some vs → ls.map loads = vs.map some := by
  intro ls
  induction ls with
  | nil =>
    intro vs h
    simp [parseLines] at h
    simp [← h]
  | cons l ls ih =>
    intro vs h
    simp only [parseLines] at h
    cases hv : loads l with
    | none => rw [hv] at h; exact absurd h (by simp)
    | some v =>
      rw [hv] at h
      cases hrest : parseLines loads ls with
      | none => rw [hrest] at h; exact absurd h (by simp)
      | some ws =>
        rw [hrest] at h
        simp at h
        subst h
        simp [hv, ih ws hrest]

lemma parseLines_none_of_mem (loads : String → Option Nat) :
    ∀ (ls : List String), (∃ l ∈ ls, loads l = Option.none) →
      parseLines loads ls = Option.none := by
  intro ls
  induction ls with
  | nil => rintro ⟨l, hl, -⟩; simp at hl
  | cons l ls ih =>
    rintro ⟨l0, hl0, hnone⟩
    simp at hl0
    rcases hl0 with rfl | hmem
    · simp [parseLines, hnone]
    · simp only [parseLines]
      cases loads l with
      | none => rfl
      | some v => rw [ih ⟨l0, hmem, hnone⟩]

/-! ## Claim theorems -/

/-- Claim C1: for every non-negative retry budget `N`, when every transport
attempt yields a retryable outcome (e.g. a 5xx status such as 500), the
request executor `make_request` — in both the `client.py` and the
`bubble.py` variant — performs exactly `N + 1` attempts and then surfaces
the final error (carrying the last attempt's status) to the caller; in
particular a caller requesting 0 retries gets exactly one attempt. -/
theorem claim1_retry_count (tr : Nat → Nat) (N : Nat) (s : ℚ) (expo : Bool)
    (h : ∀ i, tr i / 100 = 5) :
    (∃ run : ReqRun, make_request tr N s expo = some run ∧
      run.attempts = N + 1 ∧ run.outcome = ReqOutcome.raised (tr N)) ∧
    (bubble_make_request tr N s expo).attempts = N + 1 ∧
    (bubble_make_request tr N s expo).result =
      BubbleResult.valueError (tr N) := by
  have hc : ∀ i, tr i / 100 ≠ 2 ∧ tr i / 100 ≠ 4 ∧ 400 ≤ tr i ∧ tr i < 600 := by
    intro i; have := h i; omega
  have hb : ∀ i, 400 ≤ tr i ∧ tr i ≠ 400 ∧ tr i ≠ 404 ∧ tr i ≠ 401 := by
    intro i; have := h i; omega
  refine ⟨?_, ?_, ?_⟩
  · cases expo with
    | false => exact ⟨_, makeRequestAux_const tr hc N 0 s, rfl, by simp⟩
    | true => exact ⟨_, makeRequestAux_expo tr hc N 0 s, rfl, by simp⟩
  · rw [bubble_make_request_run tr hb N s expo]
  · rw [bubble_make_request_run tr hb N s expo]

/-- Concrete instance of claim C1: a transport that always answers 500,
budgets 3 and 0, constant backoff. -/
theorem claim1_retry_count_witness :
    (∃ run : ReqRun, make_request (fun _ => 500) 3 1 false = some run ∧
      run.attempts = 4 ∧ run.outcome = ReqOutcome.raised 500) ∧
    (bubble_make_request (fun _ => 500) 0 1 false).attempts = 1 := by
  have h3 := claim1_retry_count (fun _ => 500) 3 1 false (fun i => by norm_num)
  have h0 := claim1_retry_count (fun _ => 500) 0 1 false (fun i => by norm_num)
  exact ⟨h3.1, h0.2.1⟩

/-- Claim C2 counterexample: the claim states that every 4xx status on the
first attempt yields exactly one request in the request executor, for both
variants; but the `bubble.py` variant with a transport that always answers
403 (a 4xx status) and a retry budget of 2 performs 3 attempts, not 1. -/
theorem claim2_counterexample :
    (bubble_make_request (fun _ => 403) 2 1 false).attempts = 3 ∧
    (bubble_make_request (fun _ => 403) 2 1 false).attempts ≠ 1 := by
  exact ⟨rfl, by decide⟩

/-- Claim C2 amended: in the `client.py` executor every 4xx status on the
first attempt fails permanently with the HTTP error after exactly one
request, regardless of the retry budget; the `bubble.py` variant
short-circuits only the statuses 400, 404 and 401, while any other 4xx
status (e.g. 403) is retried like a transient failure, for `N + 1` total
attempts. -/
theorem claim2_4xx_amended :
    (∀ (tr : Nat → Nat) (N : Nat) (s : ℚ) (expo : Bool), tr 0 / 100 = 4 →
      make_request tr N s expo = some ⟨1, [], ReqOutcome.raised (tr 0)⟩) ∧
    (∀ (tr : Nat → Nat) (N : Nat) (s : ℚ) (expo : Bool),
      tr 0 = 400 ∨ tr 0 = 404 ∨ tr 0 = 401 →
      bubble_make_request tr N s expo =
        ⟨1, [], BubbleResult.valueError (tr 0)⟩) ∧
    (∀ (tr : Nat → Nat) (N : Nat) (s : ℚ) (expo : Bool),
      (∀ i, tr i / 100 = 4 ∧ tr i ≠ 400 ∧ tr i ≠ 404 ∧ tr i ≠ 401) →
      (bubble_make_request tr N s expo).attempts = N + 1) := by
  refine ⟨?_, ?_, ?_⟩
  · intro tr N s expo h
    exact make_request_first_4xx tr N s expo h
  · intro tr N s expo h
    exact bubble_make_request_break tr N s expo h
  · intro tr N s expo h
    have hb : ∀ i, 400 ≤ tr i ∧ tr i ≠ 400 ∧ tr i ≠ 404 ∧ tr i ≠ 401 := by
      intro i; have := h i; omega
    rw [bubble_make_request_run tr hb N s expo]

/-- Concrete instances of claim C2 (amended): 404 answered to the client
executor with budget 5 gives one request; 404 answered to the bubble
variant gives one request; 403 answered to the bubble variant with budget 2
gives 3 attempts. -/
theorem claim2_4xx_amended_witness :
    make_request (fun _ => 404) 5 1 true = some ⟨1, [], ReqOutcome.raised 404⟩ ∧
    bubble_make_request (fun _ => 404) 5 1 false =
      ⟨1, [], BubbleResult.valueError 404⟩ ∧
    (bubble_make_request (fun _ => 403) 2 1 false).attempts = 3 := by
  obtain ⟨hclient, hbreak, hretry⟩ := claim2_4xx_amended
  exact ⟨hclient (fun _ => 404) 5 1 true (by norm_num),
         hbreak (fun _ => 404) 5 1 false (by norm_num),
         hretry (fun _ => 403) 2 1 false (fun i => by norm_num)⟩

/-- Claim C3: the paginated query engine starts at cursor 0, emits each
page's records in server-returned order, advances by
`next_cursor = cursor + count` after each page, and terminates exactly when
`remaining == 0`: for any backend answering the non-final pages `ps` (all
with `remaining ≠ 0`), then a final page `pl` (`remaining = 0`), then
arbitrary further pages, the generator yields exactly the concatenation of
all page results in order and requests exactly the cursor sequence
`specCursorTrace 0 ps` (one request per consumed page, none beyond the
final page). -/
theorem claim3_pagination (ps : List Page) (pl : Page) (rest : List Page)
    (hps : ∀ p ∈ ps, p.remaining ≠ 0) (hl : pl.remaining = 0) :
    get_objects_gen (ps ++ pl :: rest) =
      some ((ps.map Page.results).flatten ++ pl.results,
            specCursorTrace 0 ps) :=
  getObjectsGenAux_run pl hl ps rest 0 hps

set_option maxRecDepth 16384

/-- Concrete instance of claim C3: pages of sizes [100, 100, 37] with
matching remaining values yield exactly the 237 records 0..236 in order,
using exactly 3 page requests at cursors [0, 100, 200] and never touching a
fourth page. -/
theorem claim3_pagination_witness :
    get_objects_gen [pageA, pageB, pageC, pageD] =
      some (List.range' 0 237, [0, 100, 200]) := by
  have h := claim3_pagination [pageA, pageB] pageC [pageD]
    (by decide) (by decide)
  exact h.trans (by decide)

/-- Claim C4: when every attempt fails retryably (e.g. always 500), the
`client.py` executor sleeps a constant `s` before each of the `N` retries
with exponential backoff off, and `s, 2s, 4s, …` (the `k`-th retry waits
`s * 2 ^ k`) with it on; the alternate `bubble.py` variant's exponential
policy sleeps 0 before the first retry and `s ^ k` before retry `k ≥ 1`
(and constant `s` when exponential backoff is off). -/
theorem claim4_backoff (tr : Nat → Nat) (N : Nat) (s : ℚ)
    (h : ∀ i, tr i / 100 = 5) :
    (∃ run : ReqRun, make_request tr N s false = some run ∧
      run.sleeps = List.replicate N s) ∧
    (∃ run : ReqRun, make_request tr N s true = some run ∧
      run.sleeps = ((List.range N).map fun k => s * 2 ^ k)) ∧
    (bubble_make_request tr N s false).sleeps = List.replicate N s ∧
    (bubble_make_request tr N s true).sleeps =
      ((List.range N).map fun k => if k = 0 then 0 else s ^ k) := by
  have hc : ∀ i, tr i / 100 ≠ 2 ∧ tr i / 100 ≠ 4 ∧ 400 ≤ tr i ∧ tr i < 600 := by
    intro i; have := h i; omega
  have hb : ∀ i, 400 ≤ tr i ∧ tr i ≠ 400 ∧ tr i ≠ 404 ∧ tr i ≠ 401 := by
    intro i; have := h i; omega
  refine ⟨⟨_, makeRequestAux_const tr hc N 0 s, rfl⟩,
          ⟨_, makeRequestAux_expo tr hc N 0 s, rfl⟩, ?_, ?_⟩
  · rw [bubble_make_request_run tr hb N s false]
    simp [List.map_const']
  · rw [bubble_make_request_run tr hb N s true]
    simp

/-- Concrete instance of claim C4: base sleep 2, budget 3, always-500
transport: the client executor sleeps [2, 4, 8] with exponential backoff,
and the bubble variant sleeps [0, 2, 4]. -/
theorem claim4_backoff_witness :
    (∃ run : ReqRun, make_request (fun _ => 500) 3 2 true = some run ∧
      run.sleeps = [2, 4, 8]) ∧
    (bubble_make_request (fun _ => 500) 3 2 true).sleeps = [0, 2, 4] := by
  have h := claim4_backoff (fun _ => 500) 3 2 (fun i => by norm_num)
  refine ⟨?_, ?_⟩
  · obtain ⟨run, hrun, hs⟩ := h.2.1
    refine ⟨run, hrun, ?_⟩
    rw [hs]
    norm_num [List.range_succ]
  · rw [h.2.2.2]
    norm_num [List.range_succ]

/-- Claim C5 counterexample: the claim states every value-carrying operator
applied to any supported value — explicitly including the empty string, and
lists for the in / not-in operators — serializes with a `value` entry; but
an `equals` constraint on the empty string and an `in` constraint on a list
both serialize with no `value` entry at all. -/
theorem claim5_counterexample :
    (Constraint.make "name" "equals" (PyVal.str "")).to_dict =
      ⟨"name", "equals", Option.none⟩ ∧
    (Constraint.make "tags" "in" (PyVal.list ["a", "b"])).to_dict =
      ⟨"tags", "in", Option.none⟩ :=
  ⟨rfl, rfl⟩

/-- Claim C5 amended: the serialized dict always contains `key` and
`constraint_type`, never a null `value`; `value` is absent for value-less
operators and `None`; a non-empty string value is serialized as itself,
numbers as their (non-empty) decimal strings, dates and datetimes as their
(non-empty) `strftime` renderings; but the empty string is dropped by the
truthiness test in `to_dict`, and list values are dropped because
`format_constraint_value` has no branch for them. -/
theorem claim5_serialization_amended :
    (∀ key op v, (Constraint.make key op v).to_dict.key = key ∧
      (Constraint.make key op v).to_dict.constraint_type = op) ∧
    (∀ key op,
      (Constraint.make key op PyVal.pynone).to_dict.value = Option.none) ∧
    (∀ f : Field, (Field.is_empty f).to_dict.value = Option.none ∧
      (Field.is_not_empty f).to_dict.value = Option.none) ∧
    (∀ key op s, s ≠ "" →
      (Constraint.make key op (PyVal.str s)).to_dict.value = some s) ∧
    (∀ key op,
      (Constraint.make key op (PyVal.str "")).to_dict.value = Option.none) ∧
    (∀ key op (n : Int),
      (Constraint.make key op (PyVal.int n)).to_dict.value =
        some (toString n)) ∧
    (∀ key op y m d,
      (Constraint.make key op (PyVal.date y m d)).to_dict.value =
        some (dateFmt y m d)) ∧
    (∀ key op y m d hh mm ss us,
      (Constraint.make key op (PyVal.datetime y m d hh mm ss us)).to_dict.value
        = some (datetimeFmt y m d hh mm ss us)) ∧
    (∀ key op xs,
      (Constraint.make key op (PyVal.list xs)).to_dict.value = Option.none) := by
  refine ⟨?_, ?_, ?_, ?_, ?_, ?_, ?_, ?_, ?_⟩
  · intro key op v
    exact ⟨rfl, rfl⟩
  · intro key op
    rfl
  · intro f
    exact ⟨rfl, rfl⟩
  · intro key op s hs
    simp [Constraint.make, Constraint.to_dict, formatConstraintValue, pyTruthy,
      hs]
  · intro key op
    rfl
  · intro key op n
    simp [Constraint.make, Constraint.to_dict, formatConstraintValue, pyTruthy,
      int_toString_ne_empty n]
  · intro key op y m d
    simp [Constraint.make, Constraint.to_dict, formatConstraintValue, pyTruthy,
      dateFmt_ne_empty y m d]
  · intro key op y m d hh mm ss us
    simp [Constraint.make, Constraint.to_dict, formatConstraintValue, pyTruthy,
      datetimeFmt_ne_empty y m d hh mm ss us]
  · intro key op xs
    rfl

/-- Concrete instance of claim C5 (amended): a non-empty string value and a
number are serialized with their `value` entry present. -/
theorem claim5_serialization_amended_witness :
    (Constraint.make "name" "equals" (PyVal.str "value")).to_dict.value =
      some "value" ∧
    (Constraint.make "n" "equals" (PyVal.int 8)).to_dict.value = some "8" := by
  obtain ⟨-, -, -, hstr, -, hint, -⟩ := claim5_serialization_amended
  exact ⟨hstr "name" "equals" "value" (by decide), hint "n" "equals" 8⟩

/-- Claim C6 counterexample: the claim states that a malformed response
line must not corrupt the neighboring lines' results; but the decode is a
single list comprehension, so for a 3-line response whose middle line is
malformed it yields nothing at all — the statuses of the first and third
lines, each perfectly parseable on its own, are lost. -/
theorem claim6_counterexample :
    createBulkDecode toyLoads ("ok" ++ "\n" ++ "\x7bbad" ++ "\n" ++ "fine") =
      Option.none ∧
    toyLoads "ok" = some 2 ∧ toyLoads "fine" = some 4 := by
  refine ⟨by decide, rfl, rfl⟩

/-- Claim C6 amended: `create_bulk` encodes the input records as
newline-joined JSON in its single POST body; the response is split on
newline and parsed line by line in order, so a fully parseable response
yields exactly one status entry per response line, positionally
corresponding (a backend answering one line per input record thus yields
one status per input record in input order); the per-line parses are NOT
failure-isolated, however: one malformed line anywhere makes the whole
decode fail, losing every line's result. -/
theorem claim6_bulk_amended :
    (∀ (dumps : Nat → String) (f1 f2 f3 : Nat),
      createBulkBody dumps [f1, f2, f3] =
        dumps f1 ++ "\n" ++ dumps f2 ++ "\n" ++ dumps f3) ∧
    (∀ (loads : String → Option Nat) (text : String) (vs : List Nat),
      createBulkDecode loads text = some vs →
      (pySplitNewline text).map loads = vs.map some ∧
      vs.length = (pySplitNewline text).length) ∧
    (∀ (loads : String → Option Nat) (text : String),
      (∃ l ∈ pySplitNewline text, loads l = Option.none) →
      createBulkDecode loads text = Option.none) := by
  refine ⟨?_, ?_, ?_⟩
  · intro dumps f1 f2 f3
    simp [createBulkBody, String.intercalate, String.intercalate.go,
      String.append_assoc]
  · intro loads text vs h
    have hmap := parseLines_eq_some loads (pySplitNewline text) vs h
    refine ⟨hmap, ?_⟩
    have hlen := congrArg List.length hmap
    simpa using hlen.symm
  · intro loads text hex
    exact parseLines_none_of_mem loads (pySplitNewline text) hex

/-- Concrete instances of claim C6 (amended): three records produce the
newline-joined body; a fully parseable 2-line response produces the 2
statuses in order; a malformed second line makes the decode fail. -/
theorem claim6_bulk_amended_witness :
    createBulkBody toString [1, 2, 3] = "1" ++ "\n" ++ "2" ++ "\n" ++ "3" ∧
    (pySplitNewline ("ok" ++ "\n" ++ "fine")).map toyLoads =
      List.map some [2, 4] ∧
    createBulkDecode toyLoads ("ok" ++ "\n" ++ "\x7bbad") = Option.none := by
  obtain ⟨hbody, hdec, hnone⟩ := claim6_bulk_amended
  refine ⟨(hbody toString 1 2 3).trans (by decide), ?_, ?_⟩
  · exact (hdec toyLoads ("ok" ++ "\n" ++ "fine") [2, 4] (by decide)).1
  · exact hnone toyLoads ("ok" ++ "\n" ++ "\x7bbad") (by decide)

/-- Claim C7 counterexample: the claim states that calling delete with both
a `bubble_id` and constraints raises an error immediately with no HTTP
request, for the delete entry points of both `client.py` and `wrapper.py`;
but `BubbleWrapper.delete` given both silently takes the delete-by-id path
and issues one HTTP request, raising nothing. -/
theorem claim7_counterexample :
    wrapperDelete (some "id1") Option.none
        (some [Constraint.make "f" "equals" (PyVal.str "v")]) 7 =
      (DeleteOutcome.deletedById, 1) :=
  rfl

/-- Claim C7 amended: `BubbleClient.delete` raises `TypeError` immediately
with no HTTP request when both `bubble_id` and constraints are given, and
`Warning` immediately with no request when neither is given;
`BubbleWrapper.delete` raises `Warning` with no request when no argument is
given, but performs no both-arguments validation: given both it deletes by
id with one HTTP request. -/
theorem claim7_delete_amended :
    (∀ (idArg : IdArg) (cs : List Constraint) (k : Nat),
      clientDelete (some idArg) (some cs) k =
        (DeleteOutcome.raisedTypeError, 0)) ∧
    (∀ k, clientDelete Option.none Option.none k =
      (DeleteOutcome.raisedWarning, 0)) ∧
    (∀ k, wrapperDelete Option.none Option.none Option.none k =
      (DeleteOutcome.raisedWarning, 0)) ∧
    (∀ (i : String) (cs : List Constraint) (k : Nat),
      wrapperDelete (some i) Option.none (some cs) k =
        (DeleteOutcome.deletedById, 1)) := by
  refine ⟨?_, ?_, ?_, ?_⟩
  · intro idArg cs k
    rfl
  · intro k
    rfl
  · intro k
    rfl
  · intro i cs k
    rfl

/-- Claim C8: for every `Field` `f` and value `v`, Python's `v < f`
dispatches to the reflected `f.__gt__(v)` and yields the same `Constraint`
as `f > v` with operator string `"greater than"`; `v > f` yields the same
`Constraint` as `f < v` with operator string `"less than"`; and `>=` / `<=`
on a `Field`, in either operand order, raise `NotImplementedError` and
never produce a `Constraint`. -/
theorem claim8_reversed_comparisons (f : Field) (v : PyVal) :
    pyLtValField v f = CmpResult.constr (f.greater_than v) ∧
    (f.greater_than v).constraint_type = "greater than" ∧
    pyGtValField v f = CmpResult.constr (f.less_than v) ∧
    (f.less_than v).constraint_type = "less than" ∧
    pyGeValField v f = CmpResult.notImplementedError ∧
    pyLeValField v f = CmpResult.notImplementedError ∧
    f.dunderGe v = CmpResult.notImplementedError ∧
    f.dunderLe v = CmpResult.notImplementedError :=
  ⟨rfl, rfl, rfl, rfl, rfl, rfl, rfl, rfl⟩

/-- Claim C9: the condition `column_id == "_id" or "unique_id"` in
`Bubble.get_object_by_id` is truthy for every `column_id` (the right
operand is a non-empty string literal), so the dispatch always takes the
primary-id fetch path and the secondary-column constrained-query branch is
unreachable. -/
theorem claim9_truthy_dispatch (column_id : String) :
    (getObjectByIdCond column_id).truthy = true ∧
    getObjectByIdDispatch column_id = LookupPath.primaryId := by
  have htru : (getObjectByIdCond column_id).truthy = true := by
    by_cases hc : (column_id == "_id") = true
    · simp [getObjectByIdCond, pyOr, PyCondVal.truthy, hc]
    · simp [getObjectByIdCond, pyOr, PyCondVal.truthy, hc]
  exact ⟨htru, by simp [getObjectByIdDispatch, htru]⟩

/-- Claim C10: with no API token configured, `_get_headers()` returns
`None`, and `create_bulk` fails with a `TypeError` while unpacking it into
its headers dict, before any HTTP request goes out — while with a token the
single bulk POST proceeds, and the other operations (e.g. `create_object`)
simply send their one request with no Authorization header attached. -/
theorem claim10_anonymous_bulk (t : String) :
    createBulkRun Option.none = (0, Except.error PyError.typeError) ∧
    createBulkRun (some t) = (1, Except.ok ()) ∧
    createObjectRun Option.none = (1, Option.none) :=
  ⟨rfl, rfl, rfl⟩

end BubbleApi
